import Mathlib

/-!
Shallow embedding of the sales-consolidation pipeline
(`shared_utils/excel_helper.py` and `demo1-consolidador-ventas/consolidador.py`)
and proofs about its specification.

Modelling conventions:
* Text (file names, column labels, branch/product/salesperson/category names)
  is modelled as `List Char`, which matches Python's code-point-wise string
  comparison and is kernel-computable.
* Monetary amounts and quantities are modelled as exact rationals (`ℚ`);
  pandas' `.round(2)` is modelled by `round2`, round-half-to-even at two
  decimal places (numpy's rounding rule).
* A pandas `DataFrame` of sale records is a `List Row`; the raw frames read
  from disk are `RawDf` (column labels + positional index + rows).
* The filesystem seen by `leer_archivos_excel` is `Option (List XFile)`:
  `none` means the directory does not exist, `some files` is its listing in
  directory order.  A glob pattern is a predicate on file names.
* `df.groupby(k)` is modelled by grouping on the deduplicated key list sorted
  ascending (pandas sorts group keys by default); `sort_values`/`nlargest`
  are modelled by a stable insertion sort (`List.insertionSort`) on the
  aggregated value, descending.
* Python exceptions become an `Except ExcelError` result; the structured
  error carries exactly the data interpolated into the corresponding Python
  error message (offending path / pattern / file name / missing columns).
-/

abbrev Texto := List Char

/-- Model of a `Fecha` cell: missing (pandas `NaT`), an already-coerced
datetime (abstracted to a day number), or a raw not-yet-coerced value that
`pd.to_datetime` would parse to the given day number. -/
inductive FechaVal : Type
  | null : FechaVal
  | dt (dia : Int) : FechaVal
  | raw (texto : Texto) (dia : Int) : FechaVal
deriving DecidableEq

/-- Model of `pd.to_datetime` on a single cell (`NaT` stays `NaT`). -/
def FechaVal.toDatetime : FechaVal → FechaVal
  | .null => .null
  | .dt d => .dt d
  | .raw _ d => .dt d

/-- Day number used when ordering coerced dates. -/
def FechaVal.dtNum : FechaVal → Int
  | .null => 0
  | .dt d => d
  | .raw _ d => d

/-- One sale record as read from a source file (before the `Total_Venta`
column is added in paso 2 of `main`). -/
structure RowIn where
  fecha : FechaVal
  producto : Texto
  categoria : Texto
  cantidad : ℚ
  precio_unitario : ℚ
  vendedor : Texto
  sucursal : Texto
deriving DecidableEq

/-- One row of the consolidated table, after `main` has added the
`Total_Venta` column. -/
structure Row where
  fecha : FechaVal
  producto : Texto
  categoria : Texto
  cantidad : ℚ
  precio_unitario : ℚ
  vendedor : Texto
  sucursal : Texto
  total_venta : ℚ
deriving DecidableEq

/-- Round-half-to-even to the nearest integer (numpy/pandas rounding rule). -/
def roundHalfEven (x : ℚ) : ℤ :=
  let n : ℤ := ⌊x⌋
  if x - n < 1/2 then n
  else if 1/2 < x - n then n + 1
  else if n % 2 = 0 then n else n + 1

/-- pandas `.round(2)`: round-half-to-even at two decimal places. -/
def round2 (x : ℚ) : ℚ := (roundHalfEven (100 * x) : ℚ) / 100

/-- `x` is an exact two-decimal quantity (a whole number of cents). -/
def esCent (x : ℚ) : Prop := (100 * x).den = 1

instance (x : ℚ) : Decidable (esCent x) := by unfold esCent; infer_instance

/-- A raw frame as produced by `pd.read_excel` / `pd.concat`: column labels,
positional index and the parsed rows. -/
structure RawDf where
  cols : List Texto
  index : List Nat
  rows : List RowIn
deriving DecidableEq

/-- A file of the input directory: its name and the frame it parses to. -/
structure XFile where
  name : Texto
  df : RawDf
deriving DecidableEq

/-- The errors raised by the pipeline, carrying the data interpolated into
the corresponding Python message. -/
inductive ExcelError : Type
  | dirNotFound (carpeta : Texto)
  | noFiles (patronTexto : Texto) (carpeta : Texto)
  | missingCols (archivo : Texto) (faltantes : List Texto)
  | imagenNoEncontrada (imagen : Texto)
deriving DecidableEq

/-- `set(columnas_requeridas) - set(df.columns)`, represented as the sublist
of the required columns that are absent. -/
def columnasFaltantes (requeridas : List Texto) (df : RawDf) : List Texto :=
  requeridas.filter (fun c => c ∉ df.cols)

/-- Body of the per-file loop of `leer_archivos_excel`: validate the required
columns of one file, raising `ValueError` naming the file and the missing
columns. -/
def leerUnArchivo (columnas_requeridas : Option (List Texto)) (archivo : XFile) :
    Except ExcelError RawDf :=
  match columnas_requeridas with
  | none => .ok archivo.df
  | some req =>
    let faltantes := columnasFaltantes req archivo.df
    if faltantes.isEmpty then .ok archivo.df
    else .error (.missingCols archivo.name faltantes)

/-- Column union in first-appearance order (how `pd.concat` combines column
sets). -/
def uniqueFirst (l : List Texto) : List Texto :=
  l.foldl (fun acc c => if c ∈ acc then acc else acc ++ [c]) []

/-- `pd.concat(dataframes, ignore_index=True)`: rows appended in order, the
index rebuilt as a contiguous range from 0. -/
def pdConcat (dfs : List RawDf) : RawDf :=
  { cols := uniqueFirst (dfs.flatMap RawDf.cols)
    rows := dfs.flatMap RawDf.rows
    index := List.range (dfs.flatMap RawDf.rows).length }

/-- `leer_archivos_excel` (excel_helper.py, lines 80-148): check the
directory exists, glob for files, validate and load each file in directory
order, and concatenate. -/
def leer_archivos_excel (carpeta : Option (List XFile)) (carpetaNombre : Texto)
    (patron : Texto → Bool) (patronTexto : Texto)
    (columnas_requeridas : Option (List Texto)) : Except ExcelError RawDf :=
  match carpeta with
  | none => .error (.dirNotFound carpetaNombre)
  | some contenido =>
    let archivos := contenido.filter (fun f => patron f.name)
    if archivos.isEmpty then .error (.noFiles patronTexto carpetaNombre)
    else do
      let dataframes ← archivos.mapM (leerUnArchivo columnas_requeridas)
      pure (pdConcat dataframes)

/-- Paso 2 of `main`:
`df['Total_Venta'] = (df['Cantidad'] * df['Precio_Unitario']).round(2)`. -/
def agregarTotal (df : List RowIn) : List Row :=
  df.map (fun r =>
    { fecha := r.fecha, producto := r.producto, categoria := r.categoria
      cantidad := r.cantidad, precio_unitario := r.precio_unitario
      vendedor := r.vendedor, sucursal := r.sucursal
      total_venta := round2 (r.cantidad * r.precio_unitario) })

/-- The group of rows of `df` whose key equals `k`. -/
def grupo (key : Row → Texto) (df : List Row) (k : Texto) : List Row :=
  df.filter (fun r => key r = k)

/-- The distinct group keys, sorted ascending (pandas `groupby` sorts group
keys by default). -/
def clavesOrdenadas (key : Row → Texto) (df : List Row) : List Texto :=
  List.insertionSort (· ≤ ·) (df.map key).dedup

/-- The summary returned by `calcular_estadisticas_generales`. -/
structure Stats where
  total_ventas : ℚ
  total_transacciones : Nat
  ticket_promedio : ℚ
  fecha_inicio : Option Int
  fecha_fin : Option Int
  num_sucursales : Nat
  num_vendedores : Nat
  num_productos : Nat
deriving DecidableEq

/-- The day numbers of the non-null dates of `df` (`min`/`max` skip `NaT`). -/
def fechasValidas (df : List Row) : List Int :=
  (df.map Row.fecha).filterMap (fun f =>
    match f with
    | .null => none
    | .dt d => some d
    | .raw _ d => some d)

/-- `calcular_estadisticas_generales` (consolidador.py, lines 77-98).  None
of the stored values is rounded. -/
def calcular_estadisticas_generales (df : List Row) : Stats :=
  { total_ventas := (df.map Row.total_venta).sum
    total_transacciones := df.length
    ticket_promedio := (df.map Row.total_venta).sum / df.length
    fecha_inicio := (fechasValidas df).min?
    fecha_fin := (fechasValidas df).max?
    num_sucursales := (df.map Row.sucursal).dedup.length
    num_vendedores := (df.map Row.vendedor).dedup.length
    num_productos := (df.map Row.producto).dedup.length }

/-- `df.groupby(key).agg({'Total_Venta':'sum','Fecha':'count'}).round(2)`:
per sorted group key, the rounded revenue sum and the count of rows with a
non-null `Fecha` (pandas `count` counts non-null cells; `round(2)` leaves the
integer count unchanged). -/
def aggSumCount (key : Row → Texto) (df : List Row) : List (Texto × ℚ × Nat) :=
  (clavesOrdenadas key df).map (fun k =>
    (k, round2 (((grupo key df k).map Row.total_venta).sum),
     ((grupo key df k).filter (fun r => r.fecha ≠ FechaVal.null)).length))

/-- One row of the `Resumen_Sucursales` table. -/
structure SucursalEntry where
  sucursal : Texto
  total_ventas : ℚ
  transacciones : Nat
  participacion : ℚ
deriving DecidableEq

/-- `analizar_ventas_por_sucursal` (consolidador.py, lines 101-124):
groupby-aggregate, add each branch's unrounded share of the summed rounded
totals, then `sort_values('Total_Ventas', ascending=False)`. -/
def analizar_ventas_por_sucursal (df : List Row) : List SucursalEntry :=
  let resumen := aggSumCount Row.sucursal df
  let totalGeneral := (resumen.map (fun e => e.2.1)).sum
  List.insertionSort (fun a b => b.total_ventas ≤ a.total_ventas)
    (resumen.map (fun e =>
      { sucursal := e.1, total_ventas := e.2.1, transacciones := e.2.2
        participacion := e.2.1 / totalGeneral }))

/-- `df.groupby(key)[columna].sum()` as a series: per sorted group key, the
unrounded sum of `val`. -/
def serieAgrupada (key : Row → Texto) (val : Row → ℚ) (df : List Row) :
    List (Texto × ℚ) :=
  (clavesOrdenadas key df).map (fun k => (k, ((grupo key df k).map val).sum))

/-- `Series.nlargest(n)` with the default `keep='first'`: the first `n`
entries of the stable descending sort of the series. -/
def nlargest (n : Nat) (serie : List (Texto × ℚ)) : List (Texto × ℚ) :=
  (List.insertionSort (fun a b : Texto × ℚ => b.2 ≤ a.2) serie).take n

/-- `analizar_top_productos` (consolidador.py, lines 127-144): the quantity
ranking is unrounded; the revenue ranking is rounded after `nlargest`. -/
def analizar_top_productos (df : List Row) (top_n : Nat := 10) :
    List (Texto × ℚ) × List (Texto × ℚ) :=
  let top_cantidad := nlargest top_n (serieAgrupada Row.producto Row.cantidad df)
  let top_monto := (nlargest top_n (serieAgrupada Row.producto Row.total_venta df)).map
    (fun e => (e.1, round2 e.2))
  (top_cantidad, top_monto)

/-- One row of the `Analisis_Vendedores` table.  `ticket_promedio` is
`none` when the stored float is not a finite number: a group whose
transaction count is 0 divides by zero, and pandas stores `inf`/`NaN`
(which `.round(2)` preserves). -/
structure VendedorEntry where
  vendedor : Texto
  total_ventas : ℚ
  transacciones : Nat
  ticket_promedio : Option ℚ
deriving DecidableEq

/-- `analizar_vendedores` (consolidador.py, lines 147-170): groupby-aggregate,
derive `Ticket_Promedio = (Total_Ventas / Transacciones).round(2)` from the
already-rounded sums, then sort descending by total.  A zero transaction
count (a group whose rows all have null `Fecha`) makes the float division
produce `inf`/`NaN`, kept by `.round(2)`; this non-finite value is modelled
as `none`. -/
def analizar_vendedores (df : List Row) : List VendedorEntry :=
  let resumen := aggSumCount Row.vendedor df
  List.insertionSort (fun a b => b.total_ventas ≤ a.total_ventas)
    (resumen.map (fun e =>
      { vendedor := e.1, total_ventas := e.2.1, transacciones := e.2.2
        ticket_promedio := if e.2.2 = 0 then none
          else some (round2 (e.2.1 / e.2.2)) }))

/-- One row of the per-category table. -/
structure CategoriaEntry where
  categoria : Texto
  total_ventas : ℚ
  unidades_vendidas : ℚ
  participacion : ℚ
deriving DecidableEq

/-- `analizar_categorias` (consolidador.py, lines 173-195):
`agg({'Total_Venta':'sum','Cantidad':'sum'}).round(2)`, unrounded share of
the summed rounded totals, sort descending by total. -/
def analizar_categorias (df : List Row) : List CategoriaEntry :=
  let resumen := (clavesOrdenadas Row.categoria df).map (fun k =>
    (k, round2 (((grupo Row.categoria df k).map Row.total_venta).sum),
     round2 (((grupo Row.categoria df k).map Row.cantidad).sum)))
  let totalGeneral := (resumen.map (fun e => e.2.1)).sum
  List.insertionSort (fun a b => b.total_ventas ≤ a.total_ventas)
    (resumen.map (fun e =>
      { categoria := e.1, total_ventas := e.2.1, unidades_vendidas := e.2.2
        participacion := e.2.1 / totalGeneral }))

/-- The in-place coercion `df['Fecha'] = pd.to_datetime(df['Fecha'])`
performed by `analizar_tendencia_temporal` on its argument. -/
def coercionFechas (df : List Row) : List Row :=
  df.map (fun r => { r with fecha := r.fecha.toDatetime })

/-- `analizar_tendencia_temporal` (consolidador.py, lines 198-213).  The
function first reassigns the `Fecha` column of its argument, then groups by
the coerced dates (pandas `groupby` drops `NaT` keys).  The second component
is the state of the caller's table after the call - the only analysis
operation with an effect on its argument. -/
def analizar_tendencia_temporal (df : List Row) : List (FechaVal × ℚ) × List Row :=
  let df2 := coercionFechas df
  let claves := List.insertionSort (fun a b : FechaVal => a.dtNum ≤ b.dtNum)
    ((df2.map Row.fecha).filter (fun f => f ≠ FechaVal.null)).dedup
  (claves.map (fun k =>
      (k, round2 (((df2.filter (fun r => r.fecha = k)).map Row.total_venta).sum))),
   df2)

/-- `insertar_imagen_en_excel` (excel_helper.py, lines 412-445): raises
`FileNotFoundError` when the image file is absent, otherwise anchors the
image at the given cell. -/
def insertar_imagen_en_excel (existe : Texto → Bool) (imagen : Texto)
    (celda : Texto) : Except ExcelError (Texto × Texto) :=
  if existe imagen then .ok (imagen, celda)
  else .error (.imagenNoEncontrada imagen)

/-- The three chart images and the cells they are anchored at
(consolidador.py, lines 282-307). -/
def ubicacionesGraficos : List (Texto × Texto) :=
  [("ventas_sucursal.png".toList, "B14".toList),
   ("categorias.png".toList, "I14".toList),
   ("tendencia.png".toList, "B39".toList)]

/-- Image-placement behaviour of `crear_hoja_dashboard` (consolidador.py,
lines 282-309): each of the three insertions is guarded by
`path.exists()`, so an absent image is skipped.  Returns the list of placed
images. -/
def crear_hoja_dashboard (existe : Texto → Bool) :
    Except ExcelError (List (Texto × Texto)) := do
  let g1 ← if existe "ventas_sucursal.png".toList then
      (insertar_imagen_en_excel existe "ventas_sucursal.png".toList "B14".toList).map
        (fun p => [p])
    else pure []
  let g2 ← if existe "categorias.png".toList then
      (insertar_imagen_en_excel existe "categorias.png".toList "I14".toList).map
        (fun p => [p])
    else pure []
  let g3 ← if existe "tendencia.png".toList then
      (insertar_imagen_en_excel existe "tendencia.png".toList "B39".toList).map
        (fun p => [p])
    else pure []
  pure (g1 ++ g2 ++ g3)

/-- The required-columns list of consolidador.py (lines 68-71). -/
def COLUMNAS_REQUERIDAS : List Texto :=
  ["Fecha".toList, "Producto".toList, "Categoría".toList, "Cantidad".toList,
   "Precio_Unitario".toList, "Vendedor".toList, "Sucursal".toList]

/-- Paso 5 of `main` (consolidador.py, lines 427-449): the sheets written to
the output workbook, in writer order, each with the number of data rows of
its backing table. -/
def escribirReporte (df : List Row) : List (Texto × Nat) :=
  [("Dashboard".toList, 0),
   ("Datos_Consolidados".toList, df.length),
   ("Top_Productos".toList, (analizar_top_productos df 10).1.length),
   ("Analisis_Vendedores".toList, (analizar_vendedores df).length),
   ("Resumen_Sucursales".toList, (analizar_ventas_por_sucursal df).length)]

/-- The `main` pipeline (consolidador.py, lines 316-574) up to the sheet
structure of the saved workbook: read and consolidate, add `Total_Venta`,
run the analyses (of which `analizar_tendencia_temporal` coerces the `Fecha`
column in place), and write the five sheets.  Any error aborts the run with
no output. -/
def mainModel (carpeta : Option (List XFile)) (carpetaNombre : Texto)
    (patron : Texto → Bool) (patronTexto : Texto) :
    Except ExcelError (List (Texto × Nat)) := do
  let dfc ← leer_archivos_excel carpeta carpetaNombre patron patronTexto
    (some COLUMNAS_REQUERIDAS)
  let df_consolidado := agregarTotal dfc.rows
  let df_final := (analizar_tendencia_temporal df_consolidado).2
  pure (escribirReporte df_final)

/-! ### Arithmetic facts about `round2` and exact two-decimal values -/

lemma roundHalfEven_intCast (m : ℤ) : roundHalfEven (m : ℚ) = m := by
  unfold roundHalfEven
  norm_num

lemma esCent_iff {x : ℚ} : esCent x ↔ ∃ m : ℤ, x = (m : ℚ) / 100 := by
  constructor
  · intro h
    refine ⟨(100 * x).num, ?_⟩
    have h1 : (((100 * x).num : ℤ) : ℚ) = 100 * x := (Rat.den_eq_one_iff _).mp h
    rw [h1]
    field_simp
  · rintro ⟨m, rfl⟩
    unfold esCent
    have h1 : (100 : ℚ) * ((m : ℚ) / 100) = (m : ℚ) := by field_simp
    rw [h1]
    exact Rat.den_intCast m

lemma esCent_round2 (x : ℚ) : esCent (round2 x) := by
  rw [esCent_iff]
  exact ⟨roundHalfEven (100 * x), rfl⟩

lemma round2_of_esCent {x : ℚ} (h : esCent x) : round2 x = x := by
  obtain ⟨m, rfl⟩ := esCent_iff.mp h
  unfold round2
  have h1 : (100 : ℚ) * ((m : ℚ) / 100) = (m : ℚ) := by field_simp
  rw [h1, roundHalfEven_intCast]

lemma esCent_zero : esCent 0 := esCent_iff.mpr ⟨0, by norm_num⟩

lemma esCent_add {x y : ℚ} (hx : esCent x) (hy : esCent y) : esCent (x + y) := by
  obtain ⟨m, rfl⟩ := esCent_iff.mp hx
  obtain ⟨n, rfl⟩ := esCent_iff.mp hy
  exact esCent_iff.mpr ⟨m + n, by push_cast; ring⟩

lemma esCent_sum {l : List ℚ} (h : ∀ x ∈ l, esCent x) : esCent l.sum := by
  induction l with
  | nil => simpa using esCent_zero
  | cons a t ih =>
    rw [List.sum_cons]
    exact esCent_add (h a (by simp)) (ih fun x hx => h x (by simp [hx]))

lemma roundHalfEven_mono {x y : ℚ} (h : x ≤ y) :
    roundHalfEven x ≤ roundHalfEven y := by
  have hf : ⌊x⌋ ≤ ⌊y⌋ := Int.floor_le_floor h
  rcases lt_or_eq_of_le hf with hlt | heq
  · have h1 : roundHalfEven x ≤ ⌊x⌋ + 1 := by
      simp only [roundHalfEven]; split_ifs <;> omega
    have h2 : ⌊y⌋ ≤ roundHalfEven y := by
      simp only [roundHalfEven]; split_ifs <;> omega
    omega
  · simp only [roundHalfEven]
    rw [← heq]
    split_ifs <;> first | omega | linarith

lemma round2_mono {x y : ℚ} (h : x ≤ y) : round2 x ≤ round2 y := by
  unfold round2
  have h1 : roundHalfEven (100 * x) ≤ roundHalfEven (100 * y) :=
    roundHalfEven_mono (by linarith)
  have h2 : ((roundHalfEven (100 * x) : ℤ) : ℚ) ≤ (roundHalfEven (100 * y) : ℚ) := by
    exact_mod_cast h1
  linarith

/-! ### Grouping: the group sums partition the total sum -/

lemma sum_map_ite_key {keys : List Texto} (hnd : keys.Nodup) {k0 : Texto}
    (hk : k0 ∈ keys) (x : ℚ) (g : Texto → ℚ) :
    (keys.map (fun k => if k0 = k then x + g k else g k)).sum
      = x + (keys.map g).sum := by
  induction keys with
  | nil => cases hk
  | cons a t ih =>
    rcases List.mem_cons.mp hk with rfl | hmem
    · have hnot : k0 ∉ t := (List.nodup_cons.mp hnd).1
      have hrest : t.map (fun k => if k0 = k then x + g k else g k) = t.map g :=
        List.map_congr_left fun k hkmem => by
          have : k0 ≠ k := fun h => hnot (h ▸ hkmem)
          simp [this]
      simp [hrest]
      ring
    · have hne : k0 ≠ a := by
        rintro rfl
        exact (List.nodup_cons.mp hnd).1 hmem
      rw [List.map_cons, List.sum_cons, if_neg hne,
        ih (List.nodup_cons.mp hnd).2 hmem, List.map_cons, List.sum_cons]
      ring

lemma sum_groups_eq (key : Row → Texto) (val : Row → ℚ) (df : List Row)
    (keys : List Texto) (hnd : keys.Nodup) (hall : ∀ r ∈ df, key r ∈ keys) :
    (keys.map (fun k => ((df.filter (fun r => key r = k)).map val).sum)).sum
      = (df.map val).sum := by
  induction df with
  | nil => simp
  | cons r t ih =>
    have hstep : keys.map (fun k => (((r :: t).filter (fun s => key s = k)).map val).sum)
        = keys.map (fun k => if key r = k then
            val r + ((t.filter (fun s => key s = k)).map val).sum
          else ((t.filter (fun s => key s = k)).map val).sum) :=
      List.map_congr_left fun k _ => by
        by_cases h : key r = k
        · simp [List.filter_cons, h]
        · simp [List.filter_cons, h]
    rw [hstep, sum_map_ite_key hnd (hall r (by simp)) (val r) _,
      ih fun s hs => hall s (by simp [hs]), List.map_cons, List.sum_cons]

lemma clavesOrdenadas_nodup (key : Row → Texto) (df : List Row) :
    (clavesOrdenadas key df).Nodup :=
  ((List.perm_insertionSort _ _).symm).nodup (List.nodup_dedup _)

lemma mem_clavesOrdenadas {key : Row → Texto} {df : List Row} {r : Row}
    (hr : r ∈ df) : key r ∈ clavesOrdenadas key df := by
  unfold clavesOrdenadas
  rw [(List.perm_insertionSort _ _).mem_iff, List.mem_dedup]
  exact List.mem_map_of_mem key hr

lemma clavesOrdenadas_pairwise_lt (key : Row → Texto) (df : List Row) :
    (clavesOrdenadas key df).Pairwise (fun a b => a < b) := by
  have hs : (clavesOrdenadas key df).Pairwise (fun a b : Texto => a ≤ b) :=
    List.sorted_insertionSort _ _
  have hnd : (clavesOrdenadas key df).Pairwise (fun a b : Texto => a ≠ b) :=
    clavesOrdenadas_nodup key df
  exact (hs.and hnd).imp fun h => lt_of_le_of_ne h.1 h.2

/-! ### The descending value sort: order and stability -/

lemma pairwise_insertionSort_desc {α : Type} (val : α → ℚ) (l : List α) :
    (List.insertionSort (fun a b => val b ≤ val a) l).Pairwise
      (fun a b => val b ≤ val a) := by
  haveI : IsTotal α (fun a b => val b ≤ val a) := ⟨fun a b => le_total (val b) (val a)⟩
  haveI : IsTrans α (fun a b => val b ≤ val a) := ⟨fun _ _ _ h1 h2 => le_trans h2 h1⟩
  exact List.sorted_insertionSort _ l

lemma pairwise_orderedInsert_lex {α : Type} (val : α → ℚ) (key : α → Texto)
    (x : α) : ∀ l : List α,
    l.Pairwise (fun a b => val b ≤ val a ∧ (val a = val b → key a < key b)) →
    (∀ y ∈ l, key x < key y) →
    (List.orderedInsert (fun a b => val b ≤ val a) x l).Pairwise
      (fun a b => val b ≤ val a ∧ (val a = val b → key a < key b)) := by
  intro l
  induction l with
  | nil => intro _ _; simp
  | cons b t ih =>
    intro hp hk
    rw [List.orderedInsert]
    obtain ⟨hb, ht⟩ := List.pairwise_cons.mp hp
    by_cases h : val b ≤ val x
    · rw [if_pos h, List.pairwise_cons]
      refine ⟨?_, hp⟩
      intro y hy
      rcases List.mem_cons.mp hy with rfl | hyt
      · exact ⟨h, fun _ => hk y (by simp)⟩
      · exact ⟨le_trans (hb y hyt).1 h, fun _ => hk y (by simp [hyt])⟩
    · rw [if_neg h, List.pairwise_cons]
      have hlt : val x < val b := lt_of_not_le h
      refine ⟨?_, ih ht fun y hy => hk y (by simp [hy])⟩
      intro y hy
      rcases (List.mem_orderedInsert _).mp hy with rfl | hyt
      · exact ⟨le_of_lt hlt, fun heq => absurd heq (ne_of_gt hlt)⟩
      · exact hb y hyt

lemma pairwise_insertionSort_lex {α : Type} (val : α → ℚ) (key : α → Texto) :
    ∀ l : List α, l.Pairwise (fun a b => key a < key b) →
    (List.insertionSort (fun a b => val b ≤ val a) l).Pairwise
      (fun a b => val b ≤ val a ∧ (val a = val b → key a < key b)) := by
  intro l
  induction l with
  | nil => intro _; simp
  | cons x t ih =>
    intro hp
    obtain ⟨hx, ht⟩ := List.pairwise_cons.mp hp
    rw [List.insertionSort]
    refine pairwise_orderedInsert_lex val key x _ (ih ht) ?_
    intro y hy
    exact hx y ((List.perm_insertionSort _ _).mem_iff.mp hy)

lemma pairwise_map_lt_of_claves {β : Type} (key : Row → Texto) (df : List Row)
    (f : Texto → β) (keyOut : β → Texto) (hf : ∀ k, keyOut (f k) = k) :
    ((clavesOrdenadas key df).map f).Pairwise
      (fun a b => keyOut a < keyOut b) := by
  rw [List.pairwise_map]
  exact (clavesOrdenadas_pairwise_lt key df).imp fun h => by
    simpa [hf] using h

/-! ### Shape of the grouped summaries -/

lemma round2_nonneg {x : ℚ} (h : 0 ≤ x) : 0 ≤ round2 x := by
  have h1 := round2_mono h
  rwa [round2_of_esCent esCent_zero] at h1

lemma aggSumCount_totals (key : Row → Texto) (df : List Row) :
    (aggSumCount key df).map (fun t => t.2.1)
      = (clavesOrdenadas key df).map
          (fun k => round2 (((grupo key df k).map Row.total_venta).sum)) := by
  simp only [aggSumCount, List.map_map]
  rfl

lemma totales_sum_eq (key : Row → Texto) (df : List Row)
    (hc : ∀ r ∈ df, esCent r.total_venta) :
    ((clavesOrdenadas key df).map
        (fun k => round2 (((grupo key df k).map Row.total_venta).sum))).sum
      = (df.map Row.total_venta).sum := by
  have h1 : (clavesOrdenadas key df).map
        (fun k => round2 (((grupo key df k).map Row.total_venta).sum))
      = (clavesOrdenadas key df).map
        (fun k => ((grupo key df k).map Row.total_venta).sum) :=
    List.map_congr_left fun k _ => by
      refine round2_of_esCent (esCent_sum fun x hx => ?_)
      obtain ⟨r, hr, rfl⟩ := List.mem_map.mp hx
      exact hc r (List.mem_filter.mp hr).1
  rw [h1]
  exact sum_groups_eq key Row.total_venta df _ (clavesOrdenadas_nodup key df)
    fun r hr => mem_clavesOrdenadas hr

lemma totales_nonneg (key : Row → Texto) (df : List Row)
    (hn : ∀ r ∈ df, 0 ≤ r.total_venta) :
    ∀ v ∈ (clavesOrdenadas key df).map
        (fun k => round2 (((grupo key df k).map Row.total_venta).sum)), 0 ≤ v := by
  intro v hv
  obtain ⟨k, _, rfl⟩ := List.mem_map.mp hv
  refine round2_nonneg (List.sum_nonneg fun x hx => ?_)
  obtain ⟨r, hr, rfl⟩ := List.mem_map.mp hx
  exact hn r (List.mem_filter.mp hr).1

lemma sum_map_div {α : Type} (l : List α) (g : α → ℚ) (s : ℚ) :
    (l.map (fun t => g t / s)).sum = (l.map g).sum / s := by
  simp only [div_eq_mul_inv]
  exact List.sum_map_mul_right l g s⁻¹

lemma mem_analizar_sucursal {df : List Row} {e : SucursalEntry}
    (h : e ∈ analizar_ventas_por_sucursal df) :
    ∃ k ∈ clavesOrdenadas Row.sucursal df,
      e = { sucursal := k
            total_ventas := round2 (((grupo Row.sucursal df k).map Row.total_venta).sum)
            transacciones := ((grupo Row.sucursal df k).filter
              (fun r => r.fecha ≠ FechaVal.null)).length
            participacion := round2 (((grupo Row.sucursal df k).map Row.total_venta).sum)
              / ((aggSumCount Row.sucursal df).map (fun t => t.2.1)).sum } := by
  unfold analizar_ventas_por_sucursal at h
  rw [(List.perm_insertionSort _ _).mem_iff] at h
  obtain ⟨t, ht, rfl⟩ := List.mem_map.mp h
  unfold aggSumCount at ht
  obtain ⟨k, hk, rfl⟩ := List.mem_map.mp ht
  exact ⟨k, hk, rfl⟩

lemma mem_analizar_vendedores {df : List Row} {e : VendedorEntry}
    (h : e ∈ analizar_vendedores df) :
    ∃ k ∈ clavesOrdenadas Row.vendedor df,
      e = { vendedor := k
            total_ventas := round2 (((grupo Row.vendedor df k).map Row.total_venta).sum)
            transacciones := ((grupo Row.vendedor df k).filter
              (fun r => r.fecha ≠ FechaVal.null)).length
            ticket_promedio := if ((grupo Row.vendedor df k).filter
                (fun r => r.fecha ≠ FechaVal.null)).length = 0 then none
              else some (round2
                (round2 (((grupo Row.vendedor df k).map Row.total_venta).sum)
                  / ((grupo Row.vendedor df k).filter
                      (fun r => r.fecha ≠ FechaVal.null)).length)) } := by
  unfold analizar_vendedores at h
  rw [(List.perm_insertionSort _ _).mem_iff] at h
  obtain ⟨t, ht, rfl⟩ := List.mem_map.mp h
  unfold aggSumCount at ht
  obtain ⟨k, hk, rfl⟩ := List.mem_map.mp ht
  exact ⟨k, hk, rfl⟩

lemma mem_analizar_categorias {df : List Row} {e : CategoriaEntry}
    (h : e ∈ analizar_categorias df) :
    ∃ k ∈ clavesOrdenadas Row.categoria df,
      e = { categoria := k
            total_ventas := round2 (((grupo Row.categoria df k).map Row.total_venta).sum)
            unidades_vendidas := round2 (((grupo Row.categoria df k).map Row.cantidad).sum)
            participacion := round2 (((grupo Row.categoria df k).map Row.total_venta).sum)
              / ((clavesOrdenadas Row.categoria df).map
                  (fun k2 => round2 (((grupo Row.categoria df k2).map Row.total_venta).sum))).sum } := by
  unfold analizar_categorias at h
  rw [(List.perm_insertionSort _ _).mem_iff] at h
  obtain ⟨t, ht, rfl⟩ := List.mem_map.mp h
  obtain ⟨k, hk, rfl⟩ := List.mem_map.mp ht
  refine ⟨k, hk, ?_⟩
  simp only [List.map_map]
  rfl

/-! ### Percentage shares -/

lemma participaciones_sucursal_suman (df : List Row)
    (hc : ∀ r ∈ df, esCent r.total_venta)
    (hpos : 0 < (df.map Row.total_venta).sum) :
    ((analizar_ventas_por_sucursal df).map SucursalEntry.participacion).sum = 1 := by
  have hS : ((aggSumCount Row.sucursal df).map (fun t => t.2.1)).sum
      = (df.map Row.total_venta).sum := by
    rw [aggSumCount_totals]; exact totales_sum_eq _ df hc
  simp only [analizar_ventas_por_sucursal]
  rw [((List.perm_insertionSort _ _).map SucursalEntry.participacion).sum_eq,
    List.map_map]
  simp only [Function.comp_def]
  rw [sum_map_div, hS]
  exact div_self (ne_of_gt hpos)

lemma participaciones_categorias_suman (df : List Row)
    (hc : ∀ r ∈ df, esCent r.total_venta)
    (hpos : 0 < (df.map Row.total_venta).sum) :
    ((analizar_categorias df).map CategoriaEntry.participacion).sum = 1 := by
  have hS : ((clavesOrdenadas Row.categoria df).map
      (fun k => round2 (((grupo Row.categoria df k).map Row.total_venta).sum))).sum
      = (df.map Row.total_venta).sum := totales_sum_eq _ df hc
  simp only [analizar_categorias]
  rw [((List.perm_insertionSort _ _).map CategoriaEntry.participacion).sum_eq,
    List.map_map]
  simp only [Function.comp_def]
  rw [sum_map_div, List.map_map]
  simp only [Function.comp_def]
  rw [hS]
  exact div_self (ne_of_gt hpos)

/-! ### Reading and validating the input files -/

lemma leerUnArchivo_ok {req : List Texto} {f : XFile}
    (h : columnasFaltantes req f.df = []) :
    leerUnArchivo (some req) f = .ok f.df := by
  simp [leerUnArchivo, h]

lemma leerUnArchivo_error {req : List Texto} {f : XFile}
    (h : columnasFaltantes req f.df ≠ []) :
    leerUnArchivo (some req) f
      = .error (.missingCols f.name (columnasFaltantes req f.df)) := by
  simp [leerUnArchivo, h]

lemma mapM_leer_ok {req : List Texto} : ∀ {l : List XFile},
    (∀ f ∈ l, columnasFaltantes req f.df = []) →
    l.mapM (leerUnArchivo (some req)) = .ok (l.map XFile.df) := by
  intro l
  induction l with
  | nil => intro _; rfl
  | cons a t ih =>
    intro h
    rw [List.mapM_cons, leerUnArchivo_ok (h a (by simp)), ih fun f hf => h f (by simp [hf])]
    rfl

lemma mapM_leer_none : ∀ l : List XFile,
    l.mapM (leerUnArchivo none) = .ok (l.map XFile.df) := by
  intro l
  induction l with
  | nil => rfl
  | cons a t ih =>
    rw [List.mapM_cons]
    show (do
      let x ← leerUnArchivo none a
      let xs ← t.mapM (leerUnArchivo none)
      pure (x :: xs)) = Except.ok ((a :: t).map XFile.df)
    rw [ih]
    rfl

lemma mapM_leer_error {req : List Texto} : ∀ {l : List XFile} {b : XFile},
    l.find? (fun f => !(columnasFaltantes req f.df).isEmpty) = some b →
    l.mapM (leerUnArchivo (some req))
      = .error (.missingCols b.name (columnasFaltantes req b.df)) := by
  intro l
  induction l with
  | nil => intro b h; cases h
  | cons a t ih =>
    intro b h
    by_cases hp : (columnasFaltantes req a.df).isEmpty
    · have hstep : List.find? (fun f => !(columnasFaltantes req f.df).isEmpty) (a :: t)
          = List.find? (fun f => !(columnasFaltantes req f.df).isEmpty) t :=
        List.find?_cons_of_neg t (by simp [hp])
      rw [hstep] at h
      rw [List.mapM_cons, leerUnArchivo_ok (List.isEmpty_iff.mp hp), ih h]
      rfl
    · have hstep : List.find? (fun f => !(columnasFaltantes req f.df).isEmpty) (a :: t)
          = some a :=
        List.find?_cons_of_pos t (by simp [hp])
      rw [hstep] at h
      cases h
      rw [List.mapM_cons,
        leerUnArchivo_error (fun hnil => hp (List.isEmpty_iff.mpr hnil))]
      rfl

lemma mapM_leer_error_shape {cols : List Texto} {l : List XFile} {e : ExcelError}
    (h : l.mapM (leerUnArchivo (some cols)) = .error e) :
    ∃ nm cs, e = .missingCols nm cs := by
  match hfind : l.find? (fun f => !(columnasFaltantes cols f.df).isEmpty) with
  | some b =>
    rw [mapM_leer_error hfind] at h
    exact ⟨b.name, columnasFaltantes cols b.df, by cases h; rfl⟩
  | none =>
    have hall : ∀ f ∈ l, columnasFaltantes cols f.df = [] := by
      intro f hf
      have h2 := List.find?_eq_none.mp hfind f hf
      simpa using h2
    rw [mapM_leer_ok hall] at h
    cases h

/-! ### Claim C1: consolidation preserves rows, order and count -/

/-- C1: for every non-empty set of matched input files that each contain all
required columns, `leer_archivos_excel` succeeds; the consolidated frame
holds exactly the rows of each input file in their original order with the
files appended in processing (directory listing) order, its row count is the
sum of the files' row counts, and its index is the contiguous range from 0. -/
theorem C1_consolidado_preserva_filas (contenido : List XFile)
    (carpetaNombre patronTexto : Texto) (patron : Texto → Bool) (req : List Texto)
    (hne : contenido.filter (fun f => patron f.name) ≠ [])
    (hok : ∀ f ∈ contenido.filter (fun f => patron f.name), ∀ c ∈ req, c ∈ f.df.cols) :
    ∃ dfc, leer_archivos_excel (some contenido) carpetaNombre patron patronTexto
        (some req) = .ok dfc
      ∧ dfc.rows = (contenido.filter (fun f => patron f.name)).flatMap
          (fun f => f.df.rows)
      ∧ dfc.rows.length = ((contenido.filter (fun f => patron f.name)).map
          (fun f => f.df.rows.length)).sum
      ∧ dfc.index = List.range dfc.rows.length := by
  have hempty : (contenido.filter (fun f => patron f.name)).isEmpty = false := by
    cases hE : (contenido.filter (fun f => patron f.name)).isEmpty
    · rfl
    · exact absurd (List.isEmpty_iff.mp hE) hne
  have hall : ∀ f ∈ contenido.filter (fun f => patron f.name),
      columnasFaltantes req f.df = [] := by
    intro f hf
    refine List.filter_eq_nil_iff.mpr fun c hc => ?_
    simpa using hok f hf c hc
  refine ⟨pdConcat ((contenido.filter (fun f => patron f.name)).map XFile.df),
    ?_, ?_, ?_, ?_⟩
  · simp only [leer_archivos_excel]
    rw [if_neg (by simp [hempty]), mapM_leer_ok hall]
    rfl
  · show ((contenido.filter (fun f => patron f.name)).map XFile.df).flatMap RawDf.rows
      = (contenido.filter (fun f => patron f.name)).flatMap (fun f => f.df.rows)
    rw [List.flatMap_map]
  · show (((contenido.filter (fun f => patron f.name)).map XFile.df).flatMap
        RawDf.rows).length
      = ((contenido.filter (fun f => patron f.name)).map
          (fun f => f.df.rows.length)).sum
    rw [List.flatMap_map, List.length_flatMap]
    rfl
  · rfl

/-- Witness for C1: two matching files of one row and two rows consolidate to
three rows in file order with index `[0, 1, 2]`. -/
theorem C1_witness :
    ∃ dfc, leer_archivos_excel (some
        [⟨"enero.xlsx".toList, ⟨[['F'], ['P']], [0],
          [⟨.dt 1, ['a'], ['c'], 2, 5, ['v'], ['s']⟩]⟩⟩,
         ⟨"febrero.xlsx".toList, ⟨[['F'], ['P']], [0, 1],
          [⟨.dt 2, ['b'], ['c'], 1, 3, ['v'], ['t']⟩,
           ⟨.dt 3, ['b'], ['d'], 4, 2, ['w'], ['s']⟩]⟩⟩])
        "input".toList (fun _ => true) "*.xlsx".toList (some [['F'], ['P']])
      = .ok dfc
      ∧ dfc.rows = [⟨.dt 1, ['a'], ['c'], 2, 5, ['v'], ['s']⟩,
          ⟨.dt 2, ['b'], ['c'], 1, 3, ['v'], ['t']⟩,
          ⟨.dt 3, ['b'], ['d'], 4, 2, ['w'], ['s']⟩]
      ∧ dfc.rows.length = 3
      ∧ dfc.index = List.range dfc.rows.length := by
  obtain ⟨dfc, h1, h2, h3, h4⟩ := C1_consolidado_preserva_filas
    [⟨"enero.xlsx".toList, ⟨[['F'], ['P']], [0],
      [⟨.dt 1, ['a'], ['c'], 2, 5, ['v'], ['s']⟩]⟩⟩,
     ⟨"febrero.xlsx".toList, ⟨[['F'], ['P']], [0, 1],
      [⟨.dt 2, ['b'], ['c'], 1, 3, ['v'], ['t']⟩,
       ⟨.dt 3, ['b'], ['d'], 4, 2, ['w'], ['s']⟩]⟩⟩]
    "input".toList "*.xlsx".toList (fun _ => true) [['F'], ['P']]
    (by decide) (by decide)
  exact ⟨dfc, h1, by rw [h2]; rfl, by rw [h3]; rfl, h4⟩

/-! ### Claim C2: a missing required column aborts the whole run -/

/-- C2: when some matched file lacks a required column, `leer_archivos_excel`
raises an error carrying the name of the (first) offending file and its
non-empty set of missing required columns; no consolidated frame is returned,
and the `main` pipeline aborts with the same error before producing any
output. -/
theorem C2_falta_columna_aborta (contenido : List XFile)
    (carpetaNombre patronTexto : Texto) (patron : Texto → Bool)
    (req : List Texto) (fbad : XFile)
    (hfind : (contenido.filter (fun f => patron f.name)).find?
        (fun f => !(columnasFaltantes req f.df).isEmpty) = some fbad) :
    leer_archivos_excel (some contenido) carpetaNombre patron patronTexto (some req)
      = .error (.missingCols fbad.name (columnasFaltantes req fbad.df))
    ∧ columnasFaltantes req fbad.df ≠ []
    ∧ (∀ c ∈ columnasFaltantes req fbad.df, c ∈ req ∧ c ∉ fbad.df.cols)
    ∧ (∀ dfc, leer_archivos_excel (some contenido) carpetaNombre patron patronTexto
        (some req) ≠ .ok dfc)
    ∧ (req = COLUMNAS_REQUERIDAS →
        mainModel (some contenido) carpetaNombre patron patronTexto
          = .error (.missingCols fbad.name (columnasFaltantes req fbad.df))) := by
  have hmem : fbad ∈ contenido.filter (fun f => patron f.name) :=
    List.mem_of_find?_eq_some hfind
  have hne : contenido.filter (fun f => patron f.name) ≠ [] := by
    intro hnil
    rw [hnil] at hmem
    cases hmem
  have hempty : ¬((contenido.filter (fun f => patron f.name)).isEmpty = true) := by
    intro hE
    exact hne (List.isEmpty_iff.mp hE)
  have hfalt : columnasFaltantes req fbad.df ≠ [] := by
    have hp := List.find?_some hfind
    intro hnil
    rw [hnil] at hp
    simp at hp
  have hleer : leer_archivos_excel (some contenido) carpetaNombre patron patronTexto
      (some req) = .error (.missingCols fbad.name (columnasFaltantes req fbad.df)) := by
    simp only [leer_archivos_excel]
    rw [if_neg (by simp [hempty]), mapM_leer_error hfind]
    rfl
  refine ⟨hleer, hfalt, ?_, ?_, ?_⟩
  · intro c hc
    have h2 := List.mem_filter.mp hc
    refine ⟨h2.1, ?_⟩
    simpa using h2.2
  · intro dfc hdfc
    rw [hleer] at hdfc
    cases hdfc
  · rintro rfl
    simp only [mainModel]
    rw [hleer]
    rfl

/-- Witness for C2: a run over one file whose frame lacks the required
`Sucursal` column aborts, naming the file and the missing column. -/
theorem C2_witness :
    leer_archivos_excel (some [⟨"marzo.xlsx".toList,
        ⟨["Fecha".toList, "Producto".toList, "Categoría".toList, "Cantidad".toList,
          "Precio_Unitario".toList, "Vendedor".toList], [], []⟩⟩])
      "input".toList (fun _ => true) "*.xlsx".toList (some COLUMNAS_REQUERIDAS)
      = .error (.missingCols "marzo.xlsx".toList ["Sucursal".toList])
    ∧ mainModel (some [⟨"marzo.xlsx".toList,
        ⟨["Fecha".toList, "Producto".toList, "Categoría".toList, "Cantidad".toList,
          "Precio_Unitario".toList, "Vendedor".toList], [], []⟩⟩])
      "input".toList (fun _ => true) "*.xlsx".toList
      = .error (.missingCols "marzo.xlsx".toList ["Sucursal".toList]) := by
  obtain ⟨h1, _, _, _, h5⟩ := C2_falta_columna_aborta
    [⟨"marzo.xlsx".toList,
      ⟨["Fecha".toList, "Producto".toList, "Categoría".toList, "Cantidad".toList,
        "Precio_Unitario".toList, "Vendedor".toList], [], []⟩⟩]
    "input".toList "*.xlsx".toList (fun _ => true) COLUMNAS_REQUERIDAS
    ⟨"marzo.xlsx".toList,
      ⟨["Fecha".toList, "Producto".toList, "Categoría".toList, "Cantidad".toList,
        "Precio_Unitario".toList, "Vendedor".toList], [], []⟩⟩
    (by decide)
  have hfalt : columnasFaltantes COLUMNAS_REQUERIDAS
      (⟨["Fecha".toList, "Producto".toList, "Categoría".toList, "Cantidad".toList,
        "Precio_Unitario".toList, "Vendedor".toList], [], []⟩ : RawDf)
      = ["Sucursal".toList] := by decide
  rw [hfalt] at h1 h5
  exact ⟨h1, h5 rfl⟩

/-! ### Claim C8: directory and pattern errors occur exactly when expected -/

/-- C8: `leer_archivos_excel` raises the directory-not-found error exactly
when the directory is absent, and the no-matching-files error exactly when
the directory exists but the glob matches nothing; in either case the `main`
pipeline returns the same error and produces no output. -/
theorem C8_errores_de_entorno (carpeta : Option (List XFile))
    (carpetaNombre patronTexto : Texto) (patron : Texto → Bool)
    (req : Option (List Texto)) :
    ((∃ p, leer_archivos_excel carpeta carpetaNombre patron patronTexto req
        = .error (.dirNotFound p)) ↔ carpeta = none)
    ∧ ((∃ p q, leer_archivos_excel carpeta carpetaNombre patron patronTexto req
        = .error (.noFiles p q)) ↔
        ∃ contenido, carpeta = some contenido
          ∧ contenido.filter (fun f => patron f.name) = [])
    ∧ ((∃ p, mainModel carpeta carpetaNombre patron patronTexto
        = .error (.dirNotFound p)) ↔ carpeta = none)
    ∧ ((∃ p q, mainModel carpeta carpetaNombre patron patronTexto
        = .error (.noFiles p q)) ↔
        ∃ contenido, carpeta = some contenido
          ∧ contenido.filter (fun f => patron f.name) = []) := by
  have principal : ∀ req2 : Option (List Texto),
      ((∃ p, leer_archivos_excel carpeta carpetaNombre patron patronTexto req2
          = .error (.dirNotFound p)) ↔ carpeta = none)
      ∧ ((∃ p q, leer_archivos_excel carpeta carpetaNombre patron patronTexto req2
          = .error (.noFiles p q)) ↔
          ∃ contenido, carpeta = some contenido
            ∧ contenido.filter (fun f => patron f.name) = []) := by
    intro req2
    match carpeta with
    | none =>
      constructor
      · simp [leer_archivos_excel]
      · constructor
        · rintro ⟨p, q, h⟩
          simp [leer_archivos_excel] at h
        · rintro ⟨contenido, h, -⟩
          cases h
    | some contenido =>
      by_cases hE : (contenido.filter (fun f => patron f.name)).isEmpty = true
      · have hleer : leer_archivos_excel (some contenido) carpetaNombre patron
            patronTexto req2 = .error (.noFiles patronTexto carpetaNombre) := by
          simp only [leer_archivos_excel]
          rw [if_pos hE]
        rw [hleer]
        constructor
        · simp
        · constructor
          · intro _
            exact ⟨contenido, rfl, List.isEmpty_iff.mp hE⟩
          · intro _
            exact ⟨patronTexto, carpetaNombre, rfl⟩
      · have hres : ∀ e, leer_archivos_excel (some contenido) carpetaNombre patron
            patronTexto req2 = .error e → ∃ nm cs, e = .missingCols nm cs := by
          intro e h
          simp only [leer_archivos_excel] at h
          rw [if_neg hE] at h
          match req2 with
          | none =>
            rw [mapM_leer_none] at h
            cases h
          | some cols =>
            match hm : (contenido.filter (fun f => patron f.name)).mapM
                (leerUnArchivo (some cols)) with
            | .ok dfs =>
              rw [hm] at h
              cases h
            | .error e2 =>
              rw [hm] at h
              cases h
              exact mapM_leer_error_shape hm
        constructor
        · constructor
          · rintro ⟨p, h⟩
            obtain ⟨nm, cs, hshape⟩ := hres _ h
            cases hshape
          · intro h
            cases h
        · constructor
          · rintro ⟨p, q, h⟩
            obtain ⟨nm, cs, hshape⟩ := hres _ h
            cases hshape
          · rintro ⟨contenido2, heq, hnil⟩
            cases heq
            rw [List.isEmpty_iff] at hE
            exact absurd hnil hE
  have hmain : ∀ e : ExcelError,
      mainModel carpeta carpetaNombre patron patronTexto = .error e ↔
      leer_archivos_excel carpeta carpetaNombre patron patronTexto
        (some COLUMNAS_REQUERIDAS) = .error e := by
    intro e
    simp only [mainModel]
    match hleer : leer_archivos_excel carpeta carpetaNombre patron patronTexto
        (some COLUMNAS_REQUERIDAS) with
    | .ok dfc =>
      constructor
      · intro h
        simp [hleer] at h
      · intro h
        cases h
    | .error e2 => simp [hleer]
  obtain ⟨h1, h2⟩ := principal req
  obtain ⟨h3, h4⟩ := principal (some COLUMNAS_REQUERIDAS)
  refine ⟨h1, h2, ?_, ?_⟩
  · constructor
    · rintro ⟨p, h⟩
      exact h3.mp ⟨p, (hmain _).mp h⟩
    · intro h
      obtain ⟨p, hp⟩ := h3.mpr h
      exact ⟨p, (hmain _).mpr hp⟩
  · constructor
    · rintro ⟨p, q, h⟩
      exact h4.mp ⟨p, q, (hmain _).mp h⟩
    · intro h
      obtain ⟨p, q, hpq⟩ := h4.mpr h
      exact ⟨p, q, (hmain _).mpr hpq⟩

/-! ### Claim C9: absent chart images are skipped, never an error -/

/-- C9: for every subset of the three chart images present on disk, dashboard
creation completes without error and places exactly the present images at
their anchor cells, omitting the absent ones. -/
theorem C9_imagenes_ausentes_se_omiten (existe : Texto → Bool) :
    crear_hoja_dashboard existe
      = .ok (ubicacionesGraficos.filter (fun p => existe p.1)) := by
  cases h1 : existe "ventas_sucursal.png".toList <;>
    cases h2 : existe "categorias.png".toList <;>
      cases h3 : existe "tendencia.png".toList <;>
        (simp at h1 h2 h3 <;>
          simp [crear_hoja_dashboard, insertar_imagen_en_excel, ubicacionesGraficos,
            h1, h2, h3] <;> rfl)

/-! ### Claim C7: the five sheets of the output workbook -/

/-- C7 counterexample: the workbook's sheet names are not the English names
the claim asserts (`Consolidated_Data` etc.); the code writes Spanish names. -/
theorem C7_contraejemplo :
    (escribirReporte (agregarTotal [])).map Prod.fst
      ≠ ["Dashboard".toList, "Consolidated_Data".toList, "Top_Products".toList,
         "Salesperson_Analysis".toList, "Branch_Summary".toList] := by
  decide

/-- C7 amended: every successful run writes exactly five sheets, in the fixed
order Dashboard, Datos_Consolidados, Top_Productos, Analisis_Vendedores,
Resumen_Sucursales. -/
theorem C7_cinco_hojas (df : List Row) :
    (escribirReporte df).map Prod.fst
      = ["Dashboard".toList, "Datos_Consolidados".toList, "Top_Productos".toList,
         "Analisis_Vendedores".toList, "Resumen_Sucursales".toList]
    ∧ (escribirReporte df).length = 5
    ∧ (∀ carpeta carpetaNombre patron patronTexto sheets,
        mainModel carpeta carpetaNombre patron patronTexto = .ok sheets →
        sheets.map Prod.fst
          = ["Dashboard".toList, "Datos_Consolidados".toList,
             "Top_Productos".toList, "Analisis_Vendedores".toList,
             "Resumen_Sucursales".toList]) := by
  refine ⟨rfl, rfl, ?_⟩
  intro carpeta carpetaNombre patron patronTexto sheets h
  simp only [mainModel] at h
  match hleer : leer_archivos_excel carpeta carpetaNombre patron patronTexto
      (some COLUMNAS_REQUERIDAS) with
  | .error e =>
    rw [hleer] at h
    cases h
  | .ok dfc =>
    rw [hleer] at h
    have h2 : escribirReporte
        ((analizar_tendencia_temporal (agregarTotal dfc.rows)).2) = sheets := by
      simpa using h
    rw [← h2]
    rfl

/-- Witness for C7 amended: a one-file, one-row run succeeds and its workbook
has exactly the five Spanish-named sheets in order. -/
theorem C7_witness :
    (∃ sheets, mainModel (some [⟨"abril.xlsx".toList,
        ⟨COLUMNAS_REQUERIDAS, [0], [⟨.dt 1, ['p'], ['c'], 1, 2, ['v'], ['s']⟩]⟩⟩])
      "input".toList (fun _ => true) "*.xlsx".toList = .ok sheets
      ∧ sheets.map Prod.fst
        = ["Dashboard".toList, "Datos_Consolidados".toList, "Top_Productos".toList,
           "Analisis_Vendedores".toList, "Resumen_Sucursales".toList]) := by
  refine ⟨[("Dashboard".toList, 0), ("Datos_Consolidados".toList, 1),
    ("Top_Productos".toList, 1), ("Analisis_Vendedores".toList, 1),
    ("Resumen_Sucursales".toList, 1)], ?_, ?_⟩
  · rfl
  · exact (C7_cinco_hojas []).2.2 (some [⟨"abril.xlsx".toList,
      ⟨COLUMNAS_REQUERIDAS, [0], [⟨.dt 1, ['p'], ['c'], 1, 2, ['v'], ['s']⟩]⟩⟩])
      "input".toList (fun _ => true) "*.xlsx".toList _ (by rfl)

/-! ### Claim C3: purity of the analysis operations -/

/-- C3 counterexample: `analizar_tendencia_temporal` mutates its argument: on
a table whose `Fecha` cell is not yet coerced, the table after the call
differs from the table passed in. -/
theorem C3_contraejemplo :
    (analizar_tendencia_temporal
        [⟨FechaVal.raw "2024-01-05".toList 5, ['p'], ['c'], 1, 2, ['v'], ['s'], 2⟩]).2
      ≠ [⟨FechaVal.raw "2024-01-05".toList 5, ['p'], ['c'], 1, 2, ['v'], ['s'], 2⟩] := by
  decide

/-- C3 amended: the five other aggregation operations read the table without
assigning to it (they are modelled as pure functions), while
`analizar_tendencia_temporal` reassigns the `Fecha` column in place: the
caller's table is unchanged after the call precisely when every `Fecha` cell
is already in coerced (datetime or missing) form. -/
theorem C3_tendencia_muta_fechas (df : List Row) :
    (analizar_tendencia_temporal df).2 = df
      ↔ ∀ r ∈ df, r.fecha.toDatetime = r.fecha := by
  have key : ∀ l : List Row,
      (l.map (fun r => { r with fecha := r.fecha.toDatetime }) = l
        ↔ ∀ r ∈ l, r.fecha.toDatetime = r.fecha) := by
    intro l
    induction l with
    | nil => simp
    | cons a t ih =>
      obtain ⟨f, p, c, q, pu, v, s, tv⟩ := a
      simp only [List.map_cons, List.cons.injEq, List.mem_cons]
      constructor
      · rintro ⟨h1, h2⟩
        have hf : f.toDatetime = f := by
          have := congrArg Row.fecha h1
          simpa using this
        intro r hr
        rcases hr with rfl | hr
        · simpa using hf
        · exact (ih.mp h2) r hr
      · intro h
        refine ⟨?_, ih.mpr fun r hr => h r (Or.inr hr)⟩
        have hf : f.toDatetime = f := by simpa using h _ (Or.inl rfl)
        simp [hf]
  simpa [analizar_tendencia_temporal, coercionFechas] using key df

/-! ### Claim C10: transaction counts exclude null dates, revenue does not -/

/-- C10: in the per-branch and per-salesperson summaries the transaction
count is the number of group rows with a non-null `Fecha`, while the revenue
is the (rounded) sum over all group rows; hence a group containing a
null-date row has a count strictly below its row count. -/
theorem C10_conteo_excluye_fechas_nulas (df : List Row) :
    (∀ e ∈ analizar_ventas_por_sucursal df,
      e.transacciones = ((grupo Row.sucursal df e.sucursal).filter
          (fun r => r.fecha ≠ FechaVal.null)).length
      ∧ e.total_ventas = round2 (((grupo Row.sucursal df e.sucursal).map
          Row.total_venta).sum)
      ∧ ((∃ r ∈ grupo Row.sucursal df e.sucursal, r.fecha = FechaVal.null) →
          e.transacciones < (grupo Row.sucursal df e.sucursal).length))
    ∧ (∀ e ∈ analizar_vendedores df,
      e.transacciones = ((grupo Row.vendedor df e.vendedor).filter
          (fun r => r.fecha ≠ FechaVal.null)).length
      ∧ e.total_ventas = round2 (((grupo Row.vendedor df e.vendedor).map
          Row.total_venta).sum)
      ∧ ((∃ r ∈ grupo Row.vendedor df e.vendedor, r.fecha = FechaVal.null) →
          e.transacciones < (grupo Row.vendedor df e.vendedor).length)) := by
  constructor
  · intro e he
    obtain ⟨k, hk, rfl⟩ := mem_analizar_sucursal he
    refine ⟨rfl, rfl, ?_⟩
    rintro ⟨r, hr, hnull⟩
    refine List.length_filter_lt_length_iff_exists.mpr ⟨r, hr, ?_⟩
    simp [hnull]
  · intro e he
    obtain ⟨k, hk, rfl⟩ := mem_analizar_vendedores he
    refine ⟨rfl, rfl, ?_⟩
    rintro ⟨r, hr, hnull⟩
    refine List.length_filter_lt_length_iff_exists.mpr ⟨r, hr, ?_⟩
    simp [hnull]

/-- Witness for C10: a branch/salesperson group of two rows, one with a null
date, has transaction count 1 against 2 rows, and the strict inequality
holds. -/
theorem C10_witness :
    (({ sucursal := ['s']
        total_ventas := round2 (((grupo Row.sucursal
          [⟨FechaVal.null, ['p'], ['c'], 1, 1, ['v'], ['s'], 1⟩,
           ⟨FechaVal.dt 1, ['p'], ['c'], 1, 1, ['v'], ['s'], 1⟩] ['s']).map
             Row.total_venta).sum)
        transacciones := ((grupo Row.sucursal
          [⟨FechaVal.null, ['p'], ['c'], 1, 1, ['v'], ['s'], 1⟩,
           ⟨FechaVal.dt 1, ['p'], ['c'], 1, 1, ['v'], ['s'], 1⟩] ['s']).filter
             (fun r => r.fecha ≠ FechaVal.null)).length
        participacion := round2 (((grupo Row.sucursal
          [⟨FechaVal.null, ['p'], ['c'], 1, 1, ['v'], ['s'], 1⟩,
           ⟨FechaVal.dt 1, ['p'], ['c'], 1, 1, ['v'], ['s'], 1⟩] ['s']).map
             Row.total_venta).sum)
          / ((aggSumCount Row.sucursal
            [⟨FechaVal.null, ['p'], ['c'], 1, 1, ['v'], ['s'], 1⟩,
             ⟨FechaVal.dt 1, ['p'], ['c'], 1, 1, ['v'], ['s'], 1⟩]).map
               (fun t => t.2.1)).sum } : SucursalEntry).transacciones
      < (grupo Row.sucursal
          [⟨FechaVal.null, ['p'], ['c'], 1, 1, ['v'], ['s'], 1⟩,
           ⟨FechaVal.dt 1, ['p'], ['c'], 1, 1, ['v'], ['s'], 1⟩] ['s']).length)
    ∧ (grupo Row.sucursal
        [⟨FechaVal.null, ['p'], ['c'], 1, 1, ['v'], ['s'], 1⟩,
         ⟨FechaVal.dt 1, ['p'], ['c'], 1, 1, ['v'], ['s'], 1⟩] ['s']).length = 2
    ∧ ((grupo Row.sucursal
        [⟨FechaVal.null, ['p'], ['c'], 1, 1, ['v'], ['s'], 1⟩,
         ⟨FechaVal.dt 1, ['p'], ['c'], 1, 1, ['v'], ['s'], 1⟩] ['s']).filter
           (fun r => r.fecha ≠ FechaVal.null)).length = 1 := by
  have h := (C10_conteo_excluye_fechas_nulas
    [⟨FechaVal.null, ['p'], ['c'], 1, 1, ['v'], ['s'], 1⟩,
     ⟨FechaVal.dt 1, ['p'], ['c'], 1, 1, ['v'], ['s'], 1⟩]).1
    _ (List.mem_singleton_self _)
  exact ⟨h.2.2 ⟨⟨FechaVal.null, ['p'], ['c'], 1, 1, ['v'], ['s'], 1⟩,
    by decide, rfl⟩, by decide, by decide⟩

/-! ### Claim C4: shares lie in [0,1] and sum to one -/

/-- C4: on a consolidated table of nonnegative two-decimal line totals with a
strictly positive grand total, every percentage share stored in the
per-branch and per-category summaries lies in `[0, 1]`, and within each
summary the shares sum exactly to 1. -/
theorem C4_participaciones (df : List Row)
    (hn : ∀ r ∈ df, 0 ≤ r.total_venta) (hc : ∀ r ∈ df, esCent r.total_venta)
    (hpos : 0 < (df.map Row.total_venta).sum) :
    ((∀ e ∈ analizar_ventas_por_sucursal df,
        0 ≤ e.participacion ∧ e.participacion ≤ 1)
      ∧ ((analizar_ventas_por_sucursal df).map SucursalEntry.participacion).sum = 1)
    ∧ ((∀ e ∈ analizar_categorias df,
        0 ≤ e.participacion ∧ e.participacion ≤ 1)
      ∧ ((analizar_categorias df).map CategoriaEntry.participacion).sum = 1) := by
  have hSsuc : ((aggSumCount Row.sucursal df).map (fun t => t.2.1)).sum
      = (df.map Row.total_venta).sum := by
    rw [aggSumCount_totals]
    exact totales_sum_eq _ df hc
  have hScat : ((clavesOrdenadas Row.categoria df).map
      (fun k => round2 (((grupo Row.categoria df k).map Row.total_venta).sum))).sum
      = (df.map Row.total_venta).sum := totales_sum_eq _ df hc
  constructor
  · constructor
    · intro e he
      obtain ⟨k, hk, rfl⟩ := mem_analizar_sucursal he
      have hv0 : 0 ≤ round2 (((grupo Row.sucursal df k).map Row.total_venta).sum) :=
        totales_nonneg Row.sucursal df hn _
          (List.mem_map_of_mem
            (fun k2 => round2 (((grupo Row.sucursal df k2).map Row.total_venta).sum)) hk)
      have hSpos : 0 < ((aggSumCount Row.sucursal df).map (fun t => t.2.1)).sum := by
        rw [hSsuc]; exact hpos
      have hvS : round2 (((grupo Row.sucursal df k).map Row.total_venta).sum)
          ≤ ((aggSumCount Row.sucursal df).map (fun t => t.2.1)).sum := by
        rw [aggSumCount_totals]
        exact List.single_le_sum (totales_nonneg Row.sucursal df hn) _
          (List.mem_map_of_mem
            (fun k2 => round2 (((grupo Row.sucursal df k2).map Row.total_venta).sum)) hk)
      exact ⟨div_nonneg hv0 (le_of_lt hSpos), (div_le_one hSpos).mpr hvS⟩
    · exact participaciones_sucursal_suman df hc hpos
  · constructor
    · intro e he
      obtain ⟨k, hk, rfl⟩ := mem_analizar_categorias he
      have hv0 : 0 ≤ round2 (((grupo Row.categoria df k).map Row.total_venta).sum) :=
        totales_nonneg Row.categoria df hn _
          (List.mem_map_of_mem
            (fun k2 => round2 (((grupo Row.categoria df k2).map Row.total_venta).sum)) hk)
      have hSpos : 0 < ((clavesOrdenadas Row.categoria df).map
          (fun k2 => round2 (((grupo Row.categoria df k2).map Row.total_venta).sum))).sum := by
        rw [hScat]; exact hpos
      have hvS : round2 (((grupo Row.categoria df k).map Row.total_venta).sum)
          ≤ ((clavesOrdenadas Row.categoria df).map
            (fun k2 => round2 (((grupo Row.categoria df k2).map Row.total_venta).sum))).sum :=
        List.single_le_sum (totales_nonneg Row.categoria df hn) _
          (List.mem_map_of_mem
            (fun k2 => round2 (((grupo Row.categoria df k2).map Row.total_venta).sum)) hk)
      exact ⟨div_nonneg hv0 (le_of_lt hSpos), (div_le_one hSpos).mpr hvS⟩
    · exact participaciones_categorias_suman df hc hpos

/-- Witness for C4: a two-branch, two-category table with totals 1 and 3 has
branch and category shares that sum to 1. -/
theorem C4_witness :
    ((analizar_ventas_por_sucursal
        [⟨FechaVal.dt 1, ['p'], ['c'], 1, 1, ['v'], ['A'], 1⟩,
         ⟨FechaVal.dt 2, ['q'], ['d'], 1, 1, ['w'], ['B'], 3⟩]).map
      SucursalEntry.participacion).sum = 1
    ∧ ((analizar_categorias
        [⟨FechaVal.dt 1, ['p'], ['c'], 1, 1, ['v'], ['A'], 1⟩,
         ⟨FechaVal.dt 2, ['q'], ['d'], 1, 1, ['w'], ['B'], 3⟩]).map
      CategoriaEntry.participacion).sum = 1 := by
  have h := C4_participaciones
    [⟨FechaVal.dt 1, ['p'], ['c'], 1, 1, ['v'], ['A'], 1⟩,
     ⟨FechaVal.dt 2, ['q'], ['d'], 1, 1, ['w'], ['B'], 3⟩]
    (by intro r hr; fin_cases hr <;> norm_num)
    (by
      intro r hr
      fin_cases hr
      · exact esCent_iff.mpr ⟨100, by norm_num⟩
      · exact esCent_iff.mpr ⟨300, by norm_num⟩)
    (by norm_num)
  exact ⟨h.1.2, h.2.2⟩

/-! ### Claim C6: which stored values are rounded to two decimals -/

/-- C6 counterexample: the mean transaction value stored by
`calcular_estadisticas_generales` is not rounded to two decimals: on line
totals 0.01 and 0.02 it stores 0.015. -/
theorem C6_contraejemplo :
    (calcular_estadisticas_generales
        [⟨FechaVal.dt 1, ['p'], ['c'], 1, 1, ['v'], ['s'], 1/100⟩,
         ⟨FechaVal.dt 2, ['p'], ['c'], 1, 2, ['v'], ['s'], 2/100⟩]).ticket_promedio
      ≠ round2 ((calcular_estadisticas_generales
        [⟨FechaVal.dt 1, ['p'], ['c'], 1, 1, ['v'], ['s'], 1/100⟩,
         ⟨FechaVal.dt 2, ['p'], ['c'], 1, 2, ['v'], ['s'], 2/100⟩]).ticket_promedio) := by
  have h1 : (calcular_estadisticas_generales
      [⟨FechaVal.dt 1, ['p'], ['c'], 1, 1, ['v'], ['s'], 1/100⟩,
       ⟨FechaVal.dt 2, ['p'], ['c'], 1, 2, ['v'], ['s'], 2/100⟩]).ticket_promedio
      = 3/200 := by
    simp [calcular_estadisticas_generales]
    norm_num
  rw [h1]
  have h2 : round2 (3/200) = 1/50 := by
    norm_num [round2, roundHalfEven]
  rw [h2]
  norm_num

/-- C6 amended: line totals are rounded at computation, and the revenue sums
and unit sums stored by the grouped analyses are exact two-decimal values
rounded when the aggregate is built; every finite per-salesperson mean
ticket is likewise a two-decimal value, the stored ticket being non-finite
(`inf`/`NaN`, modelled `none`) exactly for a group with a zero transaction
count, i.e. one whose rows all have null dates; but the general-statistics
mean transaction value (and the percentage shares, which are exact
fractions) are stored unrounded, the grand total being a plain sum that is
a two-decimal value only because the line totals are. -/
theorem C6_redondeo_en_agregacion (dfin : List RowIn) (df : List Row) (n : Nat) :
    (∀ r ∈ agregarTotal dfin,
        r.total_venta = round2 (r.cantidad * r.precio_unitario)
        ∧ esCent r.total_venta)
    ∧ (∀ e ∈ analizar_ventas_por_sucursal df, esCent e.total_ventas)
    ∧ (∀ e ∈ analizar_vendedores df,
        esCent e.total_ventas
        ∧ (∀ q ∈ e.ticket_promedio, esCent q)
        ∧ (e.ticket_promedio = none ↔ e.transacciones = 0))
    ∧ (∀ e ∈ analizar_categorias df,
        esCent e.total_ventas ∧ esCent e.unidades_vendidas)
    ∧ (∀ p ∈ (analizar_top_productos df n).2, esCent p.2)
    ∧ ((∀ r ∈ df, esCent r.total_venta) →
        esCent (calcular_estadisticas_generales df).total_ventas) := by
  refine ⟨?_, ?_, ?_, ?_, ?_, ?_⟩
  · intro r hr
    obtain ⟨r0, _, rfl⟩ := List.mem_map.mp hr
    exact ⟨rfl, esCent_round2 _⟩
  · intro e he
    obtain ⟨k, _, rfl⟩ := mem_analizar_sucursal he
    exact esCent_round2 _
  · intro e he
    obtain ⟨k, _, rfl⟩ := mem_analizar_vendedores he
    refine ⟨esCent_round2 _, ?_, ?_⟩
    · intro q hq
      have hq2 : q ∈ (if ((grupo Row.vendedor df k).filter
            (fun r => r.fecha ≠ FechaVal.null)).length = 0 then (none : Option ℚ)
          else some (round2
            (round2 (((grupo Row.vendedor df k).map Row.total_venta).sum)
              / ((grupo Row.vendedor df k).filter
                  (fun r => r.fecha ≠ FechaVal.null)).length))) := hq
      by_cases hz : ((grupo Row.vendedor df k).filter
          (fun r => r.fecha ≠ FechaVal.null)).length = 0
      · rw [if_pos hz] at hq2
        simp at hq2
      · rw [if_neg hz, Option.mem_some_iff] at hq2
        subst hq2
        exact esCent_round2 _
    · show (if ((grupo Row.vendedor df k).filter
            (fun r => r.fecha ≠ FechaVal.null)).length = 0 then (none : Option ℚ)
          else some (round2
            (round2 (((grupo Row.vendedor df k).map Row.total_venta).sum)
              / ((grupo Row.vendedor df k).filter
                  (fun r => r.fecha ≠ FechaVal.null)).length))) = none
        ↔ ((grupo Row.vendedor df k).filter
            (fun r => r.fecha ≠ FechaVal.null)).length = 0
      by_cases hz : ((grupo Row.vendedor df k).filter
          (fun r => r.fecha ≠ FechaVal.null)).length = 0
      · simp [hz]
      · simp [hz]
  · intro e he
    obtain ⟨k, _, rfl⟩ := mem_analizar_categorias he
    exact ⟨esCent_round2 _, esCent_round2 _⟩
  · intro p hp
    simp only [analizar_top_productos] at hp
    obtain ⟨q, _, rfl⟩ := List.mem_map.mp hp
    exact esCent_round2 _
  · intro hall
    refine esCent_sum fun x hx => ?_
    obtain ⟨r, hr, rfl⟩ := List.mem_map.mp hx
    exact hall r hr

/-- Witness for C6 amended: on a one-row table the computed line total is
`round2 (2 * 5/2)`, the grand total of a table of cent-valued totals is
cent-valued, and the single salesperson's stored mean ticket is a finite
two-decimal value. -/
theorem C6_witness :
    (∀ r ∈ agregarTotal [⟨FechaVal.dt 1, ['p'], ['c'], 2, 5/2, ['v'], ['s']⟩],
        r.total_venta = round2 (r.cantidad * r.precio_unitario)
        ∧ esCent r.total_venta)
    ∧ esCent (calcular_estadisticas_generales
        [⟨FechaVal.dt 1, ['p'], ['c'], 2, 5/2, ['v'], ['s'], 5⟩]).total_ventas
    ∧ (∃ q, (VendedorEntry.mk ['v']
        (round2 (((grupo Row.vendedor
          [⟨FechaVal.dt 1, ['p'], ['c'], 2, 5/2, ['v'], ['s'], 5⟩] ['v']).map
            Row.total_venta).sum))
        ((grupo Row.vendedor
          [⟨FechaVal.dt 1, ['p'], ['c'], 2, 5/2, ['v'], ['s'], 5⟩] ['v']).filter
            (fun r => r.fecha ≠ FechaVal.null)).length
        (if ((grupo Row.vendedor
            [⟨FechaVal.dt 1, ['p'], ['c'], 2, 5/2, ['v'], ['s'], 5⟩] ['v']).filter
              (fun r => r.fecha ≠ FechaVal.null)).length = 0 then none
          else some (round2
            ((round2 (((grupo Row.vendedor
              [⟨FechaVal.dt 1, ['p'], ['c'], 2, 5/2, ['v'], ['s'], 5⟩] ['v']).map
                Row.total_venta).sum))
              / ((grupo Row.vendedor
                [⟨FechaVal.dt 1, ['p'], ['c'], 2, 5/2, ['v'], ['s'], 5⟩] ['v']).filter
                  (fun r => r.fecha ≠ FechaVal.null)).length)))).ticket_promedio
        = some q ∧ esCent q) := by
  have h := C6_redondeo_en_agregacion
    [⟨FechaVal.dt 1, ['p'], ['c'], 2, 5/2, ['v'], ['s']⟩]
    [⟨FechaVal.dt 1, ['p'], ['c'], 2, 5/2, ['v'], ['s'], 5⟩] 10
  refine ⟨h.1, h.2.2.2.2.2 ?_, ?_⟩
  · intro r hr
    fin_cases hr
    exact esCent_iff.mpr ⟨500, by norm_num⟩
  · have htrans : ¬ (((grupo Row.vendedor
        [⟨FechaVal.dt 1, ['p'], ['c'], 2, 5/2, ['v'], ['s'], 5⟩] ['v']).filter
          (fun r => r.fecha ≠ FechaVal.null)).length = 0) := by decide
    simp only [if_neg htrans]
    exact ⟨_, rfl, esCent_round2 _⟩

/-! ### Claim C5: ranked aggregates are sorted descending; tie order -/

/-- C5 counterexample: with two branches of equal revenue, branch B first
encountered in the consolidated table, the summary lists A before B: ties
follow the ascending groupby key order, not first-encountered order. -/
theorem C5_contraejemplo :
    (analizar_ventas_por_sucursal
        [⟨FechaVal.dt 1, ['p'], ['c'], 1, 1, ['v'], ['B'], 10⟩,
         ⟨FechaVal.dt 1, ['q'], ['c'], 1, 1, ['v'], ['A'], 10⟩]).map
      SucursalEntry.sucursal = [['A'], ['B']]
    ∧ ([⟨FechaVal.dt 1, ['p'], ['c'], 1, 1, ['v'], ['B'], 10⟩,
        ⟨FechaVal.dt 1, ['q'], ['c'], 1, 1, ['v'], ['A'], 10⟩] : List Row).map
      Row.sucursal = [['B'], ['A']]
    ∧ (analizar_ventas_por_sucursal
        [⟨FechaVal.dt 1, ['p'], ['c'], 1, 1, ['v'], ['B'], 10⟩,
         ⟨FechaVal.dt 1, ['q'], ['c'], 1, 1, ['v'], ['A'], 10⟩]).map
      SucursalEntry.total_ventas = [round2 10, round2 10] := by
  have hclaves : clavesOrdenadas Row.sucursal
      [⟨FechaVal.dt 1, ['p'], ['c'], 1, 1, ['v'], ['B'], 10⟩,
       ⟨FechaVal.dt 1, ['q'], ['c'], 1, 1, ['v'], ['A'], 10⟩] = [['A'], ['B']] := by
    decide
  have hagg : aggSumCount Row.sucursal
      [⟨FechaVal.dt 1, ['p'], ['c'], 1, 1, ['v'], ['B'], 10⟩,
       ⟨FechaVal.dt 1, ['q'], ['c'], 1, 1, ['v'], ['A'], 10⟩]
      = [(['A'], round2 10, 1), (['B'], round2 10, 1)] := by
    simp [aggSumCount, hclaves, grupo]
  refine ⟨?_, by decide, ?_⟩
  · simp only [analizar_ventas_por_sucursal]
    rw [hagg]
    simp [List.insertionSort, List.orderedInsert]
  · simp only [analizar_ventas_por_sucursal]
    rw [hagg]
    simp [List.insertionSort, List.orderedInsert]

/-- C5 amended: every ranked aggregate is sorted descending by its aggregated
value; in the per-branch, per-salesperson, per-category tables and the
quantity Top-N list, rows with equal aggregated values appear in ascending
alphabetical order of the group key (`groupby` sorts keys before the stable
value sort), not in first-encountered order; the revenue Top-N list is
sorted descending on its stored (post-ranking rounded) values. -/
theorem C5_orden_descendente (df : List Row) (top_n : Nat) :
    (analizar_ventas_por_sucursal df).Pairwise
      (fun a b => b.total_ventas ≤ a.total_ventas
        ∧ (a.total_ventas = b.total_ventas → a.sucursal < b.sucursal))
    ∧ (analizar_vendedores df).Pairwise
      (fun a b => b.total_ventas ≤ a.total_ventas
        ∧ (a.total_ventas = b.total_ventas → a.vendedor < b.vendedor))
    ∧ (analizar_categorias df).Pairwise
      (fun a b => b.total_ventas ≤ a.total_ventas
        ∧ (a.total_ventas = b.total_ventas → a.categoria < b.categoria))
    ∧ (analizar_top_productos df top_n).1.Pairwise
      (fun a b => b.2 ≤ a.2 ∧ (a.2 = b.2 → a.1 < b.1))
    ∧ (analizar_top_productos df top_n).2.Pairwise
      (fun a b => b.2 ≤ a.2) := by
  refine ⟨?_, ?_, ?_, ?_, ?_⟩
  · simp only [analizar_ventas_por_sucursal, aggSumCount, List.map_map]
    exact pairwise_insertionSort_lex SucursalEntry.total_ventas
      SucursalEntry.sucursal _
      (pairwise_map_lt_of_claves Row.sucursal df _ SucursalEntry.sucursal
        fun k => rfl)
  · simp only [analizar_vendedores, aggSumCount, List.map_map]
    exact pairwise_insertionSort_lex VendedorEntry.total_ventas
      VendedorEntry.vendedor _
      (pairwise_map_lt_of_claves Row.vendedor df _ VendedorEntry.vendedor
        fun k => rfl)
  · simp only [analizar_categorias, List.map_map]
    exact pairwise_insertionSort_lex CategoriaEntry.total_ventas
      CategoriaEntry.categoria _
      (pairwise_map_lt_of_claves Row.categoria df _ CategoriaEntry.categoria
        fun k => rfl)
  · simp only [analizar_top_productos, nlargest, serieAgrupada]
    exact List.Pairwise.sublist (List.take_sublist _ _)
      (pairwise_insertionSort_lex Prod.snd Prod.fst _
        (pairwise_map_lt_of_claves Row.producto df _ Prod.fst fun k => rfl))
  · simp only [analizar_top_productos, nlargest, serieAgrupada]
    rw [List.pairwise_map]
    exact (List.Pairwise.sublist (List.take_sublist _ _)
      (pairwise_insertionSort_lex Prod.snd Prod.fst _
        (pairwise_map_lt_of_claves Row.producto df _ Prod.fst fun k => rfl))).imp
      fun h => round2_mono h.1
